import Mathlib

/-!
Shallow embedding of the repository YpatiosCh/AI-Agents.

Two source files are modelled:

* `projects/01.me/me_with_tools.py` — a chatbot persona class `Me` with a
  tool-calling loop (`Me.chat`), tool dispatch (`Me.handle_tool_call`),
  prompt construction (`Me.system_prompt`), startup loading (`Me.__init__`),
  the notification helper `push`, and the fixed JSON tool schema `tools`.
* `LangChain-Academy/module-1/studio/router.py` — a two-node LangGraph
  router graph (LLM node and tool-execution node) with its edges.

Modelling conventions:
* The hosted chat-completion endpoint is modelled by a finite trace of
  `Response` values that the loop consumes in order; an exhausted trace
  means the run has not completed within the observed trace.
* `json.loads` of a tool call's argument string is outsourced to the json
  library; a `ToolCall` therefore carries the parsed argument object
  directly (all schema parameters are strings, so an argument object is a
  list of string key/value pairs). Runs in which the json library itself
  raises are outside the model.
* Python methods mutate nothing but may in principle assign to `self`;
  each method is therefore translated as a function returning its result
  together with the (threaded) `Me` value, statement by statement.
* The dispatch `tool = globals().get(tool_name);
  result = tool(**arguments) if tool else ...` is modelled twice.  The
  authoritative model (`moduleGlobalsGet`, `dispatchCall`,
  `Me.handle_tool_call_exc`) covers the truthiness lookup over the actual
  module globals, Python keyword-application errors, and calls that
  raise.  The loop-level model (`globalsGet`, `callKwargs`,
  `Me.handle_tool_call`) is its total restriction to completed runs over
  the two schema tool names; the loop theorems do not depend on
  tool-result contents, and `handle_tool_call_exc_agrees` relates the
  two models.
* Fallible startup work (PDF load, summary read) and the outbound POST of
  `push` are modelled in `Except`, since the Python code installs no
  exception handler.
-/

/-- A JSON object whose values are strings, as produced by `json.loads` on
the tool-call argument strings of this program (every schema parameter has
type string) and consumed by `json.dumps` on the tool results. -/
abbrev JsonObj := List (String × String)

/-- The serialization `json.dumps` applied to a string-valued JSON object,
with Python's default separators (", " between items, ": " inside an item). -/
def jsonDumpsObj (o : JsonObj) : String :=
  "\x7b" ++ String.intercalate ", " (o.map (fun kv => "\"" ++ kv.1 ++ "\": \"" ++ kv.2 ++ "\"")) ++ "\x7d"

/-- Configuration read from the environment at module load:
`PUSHOVER_TOKEN`, `PUSHOVER_USER` (each may be absent) and
`PUSHOVER_URL` (defaulted to the empty string by `or ""`). -/
structure Env where
  pushoverToken : Option String
  pushoverUser : Option String
  pushoverUrl : String
deriving DecidableEq

/-- The form-encoded payload that `push` sends: token, user and message. -/
structure PushPayload where
  token : Option String
  user : Option String
  message : String
deriving DecidableEq

/-- The function `push(message)`: it builds the payload from the module
configuration and performs `requests.post(pushover_url, data=payload)`.
The network call is the parameter `post` (url, payload to outcome); the
Python body installs no handler around it, so its outcome is returned
as is.  The `print` to stdout is not modelled. -/
def push (env : Env) (post : String → PushPayload → Except String Unit) (message : String) :
    Except String Unit :=
  post env.pushoverUrl ⟨env.pushoverToken, env.pushoverUser, message⟩

/-- The function `record_user_details(email, name, notes)`: returns the
notification text passed to `push` together with the result dict
`\x7b"recorded": "ok"\x7d`.  The Python defaults for `name` and `notes` are
applied at the keyword-application site (`callKwargs`). -/
def record_user_details (email name notes : String) : String × JsonObj :=
  ("Recording interest from " ++ name ++ " with email " ++ email ++ " and notes: " ++ notes,
   [("recorded", "ok")])

/-- The function `record_unknown_question(question)`: returns the
notification text passed to `push` together with the result dict
`\x7b"recorded": "ok"\x7d`. -/
def record_unknown_question (question : String) : String × JsonObj :=
  ("Recording " ++ question ++ " asked that I couldn\x27t answer", [("recorded", "ok")])

/-- The two module-level functions that the tool dispatch can resolve. -/
inductive ToolFn
  | record_user_details
  | record_unknown_question
deriving DecidableEq

/-- Lookup of a key in a parsed argument object, with a default for an
absent keyword argument. -/
def lookupD (args : JsonObj) (key dflt : String) : String :=
  match args.find? (fun kv => kv.1 = key) with
  | some kv => kv.2
  | none => dflt

/-- The call `tool(**arguments)` restricted to completed calls of the two
schema tool functions: `name` and `notes` default to the source's default
strings, and only the returned dict is kept.  This total version serves
the loop-level model only; the faithful keyword application — a missing
required `email`/`question` or an unexpected keyword raises TypeError,
and the `push` inside the call can raise — is `callRecordUserDetails` /
`callRecordUnknownQuestion` below. -/
def callKwargs (f : ToolFn) (args : JsonObj) : JsonObj :=
  match f with
  | ToolFn.record_user_details =>
      (record_user_details (lookupD args "email" "") (lookupD args "name" "Name not provided")
        (lookupD args "notes" "Not provided")).2
  | ToolFn.record_unknown_question =>
      (record_unknown_question (lookupD args "question" "")).2

/-- The lookup `globals().get(tool_name)` restricted to the two schema
tool names, mapping every other name to `none`.  This is the total
completed-run restriction used by the loop-level model only: the real
module globals also bind the callable `push` and truthy non-callables
such as `tools`, whose dispatch is modelled faithfully by
`moduleGlobalsGet` and `dispatchCall` below. -/
def globalsGet (name : String) : Option ToolFn :=
  if name = "record_user_details" then some ToolFn.record_user_details
  else if name = "record_unknown_question" then some ToolFn.record_unknown_question
  else none

/-- The `function` member of a tool call in a model response: a name and
the argument object (already parsed from the JSON argument string). -/
structure ToolCallFunction where
  name : String
  arguments : JsonObj
deriving DecidableEq

/-- A tool call of a model response: identifier and function member. -/
structure ToolCall where
  id : String
  function : ToolCallFunction
deriving DecidableEq

/-- A message record of the conversation list: role, content, the
`tool_call_id` carried by tool-result messages, and the tool calls carried
by an appended assistant message. -/
structure Msg where
  role : String
  content : String
  tool_call_id : Option String
  tool_calls : List ToolCall
deriving DecidableEq

/-- The assistant message inside a model response: content and tool calls. -/
structure AssistantMessage where
  content : String
  tool_calls : List ToolCall
deriving DecidableEq

/-- The assistant message as it is appended to the conversation list by
`messages.append(message)`. -/
def AssistantMessage.toMsg (m : AssistantMessage) : Msg :=
  ⟨"assistant", m.content, none, m.tool_calls⟩

/-- The first (and only) choice of a model response: finish reason and
assistant message, as read through `response.choices[0]`. -/
structure Choice where
  finish_reason : String
  message : AssistantMessage
deriving DecidableEq

/-- A model response; `choices0` is `response.choices[0]`. -/
structure Response where
  choices0 : Choice
deriving DecidableEq

/-- A property entry of a JSON-schema `properties` object: property name,
type and description. -/
structure PropEntry where
  name : String
  type : String
  description : String
deriving DecidableEq

/-- The `parameters` object of a function schema. -/
structure Parameters where
  type : String
  properties : List PropEntry
  required : List String
  additionalProperties : Bool
deriving DecidableEq

/-- A function schema: name, description and parameters. -/
structure FunctionDef where
  name : String
  description : String
  parameters : Parameters
deriving DecidableEq

/-- An entry of the `tools` list: `\x7b"type": "function", "function": ...\x7d`. -/
structure ToolEntry where
  type : String
  function : FunctionDef
deriving DecidableEq

/-- The module-level dict `record_user_details_json`. -/
def record_user_details_json : FunctionDef :=
  ⟨"record_user_details",
   "Use this tool to record that a user is interested in being in touch ans provided an email adress",
   ⟨"object",
    [⟨"email", "string", "The email adress of this user"⟩,
     ⟨"name", "string", "The name of this user"⟩,
     ⟨"notes", "string", "Any additional information that is worth recording"⟩],
    ["email"],
    false⟩⟩

/-- The module-level dict `record_unknown_question_json`. -/
def record_unknown_question_json : FunctionDef :=
  ⟨"record_unknown_question",
   "Always use this tool to record any question that couldn\x27t be answered or you didn\x27t know the answer to",
   ⟨"object",
    [⟨"question", "string", "The question that couldn\x27t be answered"⟩],
    ["question"],
    false⟩⟩

/-- The module-level list `tools` passed to every chat-completion call. -/
def tools : List ToolEntry :=
  [⟨"function", record_user_details_json⟩, ⟨"function", record_unknown_question_json⟩]

/-- The persona state of class `Me`: the fields assigned in `__init__`.
The OpenAI client handle is not modelled. -/
structure Me where
  name : String
  bio : String
  summary : String
deriving DecidableEq

/-- The bio-accumulation loop of `Me.__init__`: starting from the empty
string, each page's extracted text is appended when it is not None. -/
def extractBio (pages : List (Option String)) : String :=
  pages.foldl (fun acc t => match t with | some text => acc ++ text | none => acc) ""

/-- The constructor `Me.__init__`: `pdfPages` is the outcome of
`PdfReader(pdf_path)` followed by `extract_text()` on each page (an
`Option String` per page), `summaryRead` the outcome of reading
`summary.txt`.  No handler is installed, so a failure of either outcome
propagates; on success the three persona fields are assigned once. -/
def MeInit (pdfPages : Except String (List (Option String)))
    (summaryRead : Except String String) : Except String Me :=
  match pdfPages with
  | Except.error e => Except.error e
  | Except.ok pages =>
      match summaryRead with
      | Except.error e => Except.error e
      | Except.ok s => Except.ok ⟨"Ypatios Chaniotakos", extractBio pages, s⟩

/-- The method `Me.handle_tool_call(tool_calls)` in completed-run form,
used by the loop-level model: for each tool call in order, resolve the
name through the restricted lookup, call the resolved function on the
parsed arguments (or take `\x7b\x7d` when the name does not resolve), and
append a message with role "tool", the serialized result as content and
the call's identifier as `tool_call_id`.  The method assigns to no field
of `self`, so the threaded `Me` is returned unchanged.  The faithful,
exception-aware form of the same method body is
`Me.handle_tool_call_exc` below. -/
def Me.handle_tool_call (me : Me) (tool_calls : List ToolCall) : List Msg × Me :=
  match tool_calls with
  | [] => ([], me)
  | tc :: rest =>
      let tool := globalsGet tc.function.name
      let result := match tool with
        | some f => callKwargs f tc.function.arguments
        | none => ([] : JsonObj)
      let msg : Msg := ⟨"tool", jsonDumpsObj result, some tc.id, []⟩
      let r := me.handle_tool_call rest
      (msg :: r.1, r.2)

/-- The method `Me.system_prompt()`: builds the prompt string exactly as
the source's f-strings do (backslash line continuations join the pieces
with no extra characters), then appends the summary/bio block and the
closing sentence.  No field of `self` is assigned. -/
def Me.system_prompt (me : Me) : String × Me :=
  let system_prompt :=
    "You are acting as " ++ me.name ++ ". You are answering questions on " ++ me.name ++
    "\x27s website, particularly questions related to " ++ me.name ++
    "\x27s career, background, skills and experience. " ++
    "Your responsibility is to represent " ++ me.name ++
    " for interactions on the website as faithfully as possible. " ++
    "You are given a summary of " ++ me.name ++
    "\x27s background and bio profile which you can use to answer questions. " ++
    "Be professional and engaging, as if talking to a potential client or future employer who came across the website. " ++
    "If you don\x27t know the answer to any question, use your record_unknown_question tool to record the question that you couldn\x27t answer, even if it\x27s about something trivial or unrelated to career. " ++
    "If the user is engaging in discussion, try to steer them towards getting in touch via email; ask for their email and record it using your record_user_details tool. "
  let system_prompt := system_prompt ++
    "\n\n## Summary:\n" ++ me.summary ++ "\n\n## bio Profile:\n" ++ me.bio ++ "\n\n"
  let system_prompt := system_prompt ++
    "With this context, please chat with the user, always staying in character as " ++ me.name ++ "."
  (system_prompt, me)

/-- One chat-completion request issued inside `Me.chat`: the fixed model
string, the messages list at the time of the call, and the `tools`
argument. -/
structure Request where
  model : String
  messages : List Msg
  tools : List ToolEntry
deriving DecidableEq

/-- The `while not done` loop of `Me.chat`, run against the finite
response trace `responses`: each iteration issues a request (recorded in
the first component), binds the next response to the loop variable
`response`, and either processes the tool calls — appending the assistant
message and the tool results to `messages` and continuing — or exits.
The second component is `none` when the trace is exhausted while the loop
still wants another response (the run has not completed), and otherwise
carries the value of the `response` variable at exit, the messages list
at exit and the threaded `Me`. -/
def chatLoopAux (me : Me) (responses : List Response) (messages : List Msg)
    (response : Option Response) :
    List Request × Option (Option Response × List Msg × Me) :=
  match responses with
  | [] => ([], none)
  | r :: rest =>
      let req : Request := ⟨"gpt-4o-mini", messages, tools⟩
      if r.choices0.finish_reason = "tool_calls" then
        let message := r.choices0.message
        let tool_calls := message.tool_calls
        let hr := me.handle_tool_call tool_calls
        let next := chatLoopAux hr.2 rest ((messages ++ [message.toMsg]) ++ hr.1) (some r)
        (req :: next.1, next.2)
      else
        ([req], some (some r, messages, me))

/-- The method `Me.chat(message, history)`: builds the initial messages
list `[system] + history + [user]`, runs the loop with `response = None`
and `done = False`, and afterwards returns `""` if `response` is still
None and otherwise `response.choices[0].message.content`.  The outer
`Option` of the result is `none` when the response trace is exhausted
before the loop exits. -/
def Me.chat (me : Me) (responses : List Response) (message : String) (history : List Msg) :
    Option String × Me :=
  let sp := me.system_prompt
  let messages := ⟨"system", sp.1, none, []⟩ :: (history ++ [⟨"user", message, none, []⟩])
  match (chatLoopAux sp.2 responses messages none).2 with
  | none => (none, sp.2)
  | some out =>
      match out.1 with
      | none => (some "", out.2.2)
      | some r => (some r.choices0.message.content, out.2.2)

/-- The nodes of the router graph of `router.py`: the LangGraph START and
END sentinels, the LLM node `tool_calling_llm` and the tool-execution
node `tools`. -/
inductive RNode
  | START
  | tool_calling_llm
  | tools
  | END
deriving DecidableEq

/-- The prebuilt `tools_condition` router: it routes to the `tools` node
when the last message carries tool calls and to END otherwise (the source
comment: routes "tools" and "__end__"). -/
def tools_condition (lastHasToolCalls : Bool) : RNode :=
  if lastHasToolCalls then RNode.tools else RNode.END

/-- The successor relation of the compiled router graph, read off the
builder calls: `add_edge(START, "tool_calling_llm")`,
`add_conditional_edges("tool_calling_llm", tools_condition)` and
`add_edge("tools", END)`.  END has no successor. -/
def routerNext (n : RNode) (lastHasToolCalls : Bool) : Option RNode :=
  match n with
  | RNode.START => some RNode.tool_calling_llm
  | RNode.tool_calling_llm => some (tools_condition lastHasToolCalls)
  | RNode.tools => some RNode.END
  | RNode.END => none

/-- The result dict the restricted completed-run dispatch produces for
one tool call: the resolved function applied to the parsed arguments, or
the empty dict when the name does not resolve under the restricted
lookup.  The faithful per-call dispatch is `dispatchCall` below. -/
def dispatchResult (tc : ToolCall) : JsonObj :=
  match globalsGet tc.function.name with
  | some f => callKwargs f tc.function.arguments
  | none => []

/-- The initial messages list built at the top of `Me.chat`:
`[system] + history + [user]`. -/
def initMessages (me : Me) (message : String) (history : List Msg) : List Msg :=
  ⟨"system", (me.system_prompt).1, none, []⟩ :: (history ++ [⟨"user", message, none, []⟩])

/-- A Python value returned by a dispatched call, as handed to
`json.dumps`: a dict of strings (what the tool functions return), or
Python None (what `push` returns). -/
inductive PyVal
  | obj (o : JsonObj)
  | pynone
deriving DecidableEq

/-- `json.dumps` on the values a dispatched call can return: a dict is
serialized by `jsonDumpsObj`; Python None serializes to "null". -/
def jsonDumps : PyVal → String
  | PyVal.obj o => jsonDumpsObj o
  | PyVal.pynone => "null"

/-- The keys of a parsed argument object (`json.loads` deduplicates
object keys, so they are distinct). -/
def keysOf (args : JsonObj) : List String := args.map (fun kv => kv.1)

/-- The Python keyword-application check for `f(**arguments)` against a
signature of required and optional keyword parameters: every required
key must be present and no key may fall outside the signature; otherwise
the call raises TypeError. -/
def kwargsOK (args : JsonObj) (required optional : List String) : Bool :=
  required.all (fun k => (keysOf args).contains k) &&
  (keysOf args).all (fun k => (required ++ optional).contains k)

/-- The call `record_user_details(**arguments)` with Python keyword
semantics: a missing required `email` or an unexpected keyword raises
TypeError; otherwise the notification is pushed (a failing POST raises
out of the call) and the result dict is returned.  Error strings are
nominal. -/
def callRecordUserDetails (env : Env) (post : String → PushPayload → Except String Unit)
    (args : JsonObj) : Except String PyVal :=
  if kwargsOK args ["email"] ["name", "notes"] then
    let r := record_user_details (lookupD args "email" "")
      (lookupD args "name" "Name not provided") (lookupD args "notes" "Not provided")
    match push env post r.1 with
    | Except.error e => Except.error e
    | Except.ok _ => Except.ok (PyVal.obj r.2)
  else Except.error "TypeError: invalid keyword arguments"

/-- The call `record_unknown_question(**arguments)` with Python keyword
semantics: a missing required `question` or an unexpected keyword raises
TypeError; otherwise the notification is pushed (a failing POST raises
out of the call) and the result dict is returned. -/
def callRecordUnknownQuestion (env : Env) (post : String → PushPayload → Except String Unit)
    (args : JsonObj) : Except String PyVal :=
  if kwargsOK args ["question"] [] then
    let r := record_unknown_question (lookupD args "question" "")
    match push env post r.1 with
    | Except.error e => Except.error e
    | Except.ok _ => Except.ok (PyVal.obj r.2)
  else Except.error "TypeError: invalid keyword arguments"

/-- The call `push(**arguments)` with Python keyword semantics: the
signature is `push(message)`, so anything but exactly the key `message`
raises TypeError; a failing POST raises out of the call; on success
`push` returns None. -/
def callPush (env : Env) (post : String → PushPayload → Except String Unit)
    (args : JsonObj) : Except String PyVal :=
  if kwargsOK args ["message"] [] then
    match push env post (lookupD args "message" "") with
    | Except.error e => Except.error e
    | Except.ok _ => Except.ok PyVal.pynone
  else Except.error "TypeError: invalid keyword arguments"

/-- Classification of a module-global value of `me_with_tools.py` by how
the dispatch `result = tool(**arguments) if tool else \x7b\x7d` treats it:
one of the three module-level functions (modelled calls), a class or
third-party callable (call outcome outside the model), a truthy
non-callable (calling raises TypeError), or a falsy value (skipped like
an absent name). -/
inductive PyGlobal
  | toolRecordUserDetails
  | toolRecordUnknownQuestion
  | toolPush
  | libraryCallable
  | truthyNonCallable
  | falsy
deriving DecidableEq

/-- The lookup `globals().get(tool_name)` over the actual module globals
of `me_with_tools.py` during a chat session:
* the module's own functions `record_user_details`,
  `record_unknown_question` and `push` (truthy callables with modelled
  bodies);
* `OpenAI`, `load_dotenv`, `PdfReader`, `Any`, `cast` and the class `Me`
  (truthy; the outcome of calling them on the model's keyword arguments
  is third-party behavior outside the model);
* truthy non-callables — the modules `os`, `requests`, `json`, `gr`, the
  dicts `record_user_details_json`, `record_unknown_question_json`, the
  list `tools`, the `Me` instance `me` bound by the main block before any
  chat runs, and the interpreter attributes `__name__`, `__file__`,
  `__builtins__`, `__loader__`;
* falsy values, which the dispatch treats like absent names: `__doc__`,
  `__package__` and `__spec__` (None for a directly run script) and an
  unset or empty pushover environment value; a set, nonempty pushover
  value is a truthy non-callable string.
Interpreter attributes not listed are None for a directly run script and
behave like absent names. -/
def moduleGlobalsGet (env : Env) (name : String) : Option PyGlobal :=
  if name = "record_user_details" then some PyGlobal.toolRecordUserDetails
  else if name = "record_unknown_question" then some PyGlobal.toolRecordUnknownQuestion
  else if name = "push" then some PyGlobal.toolPush
  else if name = "OpenAI" ∨ name = "load_dotenv" ∨ name = "PdfReader" ∨ name = "Any" ∨
    name = "cast" ∨ name = "Me" then some PyGlobal.libraryCallable
  else if name = "os" ∨ name = "requests" ∨ name = "json" ∨ name = "gr" ∨
    name = "record_user_details_json" ∨ name = "record_unknown_question_json" ∨
    name = "tools" ∨ name = "me" ∨ name = "__name__" ∨ name = "__file__" ∨
    name = "__builtins__" ∨ name = "__loader__" then some PyGlobal.truthyNonCallable
  else if name = "__doc__" ∨ name = "__package__" ∨ name = "__spec__" then some PyGlobal.falsy
  else if name = "pushover_token" then
    match env.pushoverToken with
    | none => some PyGlobal.falsy
    | some s => if s = "" then some PyGlobal.falsy else some PyGlobal.truthyNonCallable
  else if name = "pushover_user" then
    match env.pushoverUser with
    | none => some PyGlobal.falsy
    | some s => if s = "" then some PyGlobal.falsy else some PyGlobal.truthyNonCallable
  else if name = "pushover_url" then
    if env.pushoverUrl = "" then some PyGlobal.falsy else some PyGlobal.truthyNonCallable
  else none

/-- One dispatch step `tool = globals().get(tool_name);
result = tool(**arguments) if tool else \x7b\x7d` under the faithful
globals model: an absent or falsy name yields the empty dict, the
module's own functions are called with Python keyword semantics, a
truthy non-callable raises TypeError, and a library callable's outcome
is outside the model (`none`). -/
def dispatchCall (env : Env) (post : String → PushPayload → Except String Unit)
    (name : String) (args : JsonObj) : Option (Except String PyVal) :=
  match moduleGlobalsGet env name with
  | none => some (Except.ok (PyVal.obj []))
  | some PyGlobal.falsy => some (Except.ok (PyVal.obj []))
  | some PyGlobal.toolRecordUserDetails => some (callRecordUserDetails env post args)
  | some PyGlobal.toolRecordUnknownQuestion => some (callRecordUnknownQuestion env post args)
  | some PyGlobal.toolPush => some (callPush env post args)
  | some PyGlobal.truthyNonCallable => some (Except.error "TypeError: object is not callable")
  | some PyGlobal.libraryCallable => none

/-- The method `Me.handle_tool_call(tool_calls)` under the faithful
dispatch model: tool calls are processed in order; a raising call
propagates its exception, so no result list is returned and later calls
never run; a dispatch hitting a library callable puts the run's outcome
outside the model.  On a completed run each call contributes one message
with role "tool", the serialized result as content and the call's
identifier, and the threaded `Me` is returned unchanged. -/
def Me.handle_tool_call_exc (me : Me) (env : Env)
    (post : String → PushPayload → Except String Unit) :
    List ToolCall → Option (Except String (List Msg × Me))
  | [] => some (Except.ok ([], me))
  | tc :: rest =>
      match dispatchCall env post tc.function.name tc.function.arguments with
      | none => none
      | some (Except.error e) => some (Except.error e)
      | some (Except.ok v) =>
          match me.handle_tool_call_exc env post rest with
          | none => none
          | some (Except.error e) => some (Except.error e)
          | some (Except.ok r) =>
              some (Except.ok ((⟨"tool", jsonDumps v, some tc.id, []⟩ : Msg) :: r.1, r.2))

theorem system_prompt_snd (me : Me) : (me.system_prompt).2 = me := rfl

theorem handle_tool_call_spec (me : Me) (tcs : List ToolCall) :
    me.handle_tool_call tcs =
      (tcs.map (fun tc => (⟨"tool", jsonDumpsObj (dispatchResult tc), some tc.id, []⟩ : Msg)), me) := by
  induction tcs with
  | nil => rfl
  | cons tc rest ih => simp [Me.handle_tool_call, ih, dispatchResult]

theorem chat_def (me : Me) (responses : List Response) (message : String) (history : List Msg) :
    me.chat responses message history =
      match (chatLoopAux me responses (initMessages me message history) none).2 with
      | none => (none, me)
      | some out =>
          match out.1 with
          | none => (some "", out.2.2)
          | some r => (some r.choices0.message.content, out.2.2) := rfl

theorem chatLoopAux_all_tool (responses : List Response) :
    ∀ me msgs rv, (∀ r ∈ responses, r.choices0.finish_reason = "tool_calls") →
      (chatLoopAux me responses msgs rv).2 = none := by
  induction responses with
  | nil => intro me msgs rv _; rfl
  | cons r rest ih =>
      intro me msgs rv h
      have hr : r.choices0.finish_reason = "tool_calls" := h r (List.mem_cons_self r rest)
      simp only [chatLoopAux, hr, if_pos]
      exact ih _ _ _ (fun p hp => h p (List.mem_cons_of_mem r hp))

theorem chatLoopAux_exit (responses : List Response) :
    ∀ me msgs rv out, (chatLoopAux me responses msgs rv).2 = some out →
      (∃ r, r ∈ responses ∧ out.1 = some r ∧ r.choices0.finish_reason ≠ "tool_calls") ∧
      msgs <+: out.2.1 ∧ out.2.2 = me := by
  induction responses with
  | nil => intro me msgs rv out h; exact absurd h (by simp [chatLoopAux])
  | cons r rest ih =>
      intro me msgs rv out h
      by_cases hr : r.choices0.finish_reason = "tool_calls"
      · simp only [chatLoopAux, hr, if_pos] at h
        have hme : (me.handle_tool_call r.choices0.message.tool_calls).2 = me := by
          rw [handle_tool_call_spec]
        rw [hme] at h
        obtain ⟨⟨r', hmem, hout, hne⟩, hpre, hme'⟩ := ih me _ _ _ h
        refine ⟨⟨r', List.mem_cons_of_mem r hmem, hout, hne⟩, ?_, hme'⟩
        obtain ⟨t, ht⟩ := hpre
        exact ⟨[r.choices0.message.toMsg] ++
          (me.handle_tool_call r.choices0.message.tool_calls).1 ++ t, by rw [← ht]; simp⟩
      · simp only [chatLoopAux, hr, if_neg, if_false] at h
        obtain rfl : out = (some r, msgs, me) := by
          simpa using h.symm
        exact ⟨⟨r, List.mem_cons_self r rest, rfl, hr⟩, ⟨[], by simp⟩, rfl⟩

theorem chatLoopAux_first_exit (pre : List Response) :
    ∀ me r rest msgs rv, (∀ p ∈ pre, p.choices0.finish_reason = "tool_calls") →
      r.choices0.finish_reason ≠ "tool_calls" →
      ∃ ms, (chatLoopAux me (pre ++ r :: rest) msgs rv).2 = some (some r, ms, me) := by
  induction pre with
  | nil =>
      intro me r rest msgs rv _ hr
      exact ⟨msgs, by simp [chatLoopAux, hr]⟩
  | cons p pre' ih =>
      intro me r rest msgs rv hpre hr
      have hp : p.choices0.finish_reason = "tool_calls" := hpre p (List.mem_cons_self p pre')
      have hme : (me.handle_tool_call p.choices0.message.tool_calls).2 = me := by
        rw [handle_tool_call_spec]
      obtain ⟨ms, hms⟩ := ih me r rest
        ((msgs ++ [AssistantMessage.toMsg p.choices0.message]) ++
          (me.handle_tool_call p.choices0.message.tool_calls).1) (some p)
        (fun q hq => hpre q (List.mem_cons_of_mem p hq)) hr
      refine ⟨ms, ?_⟩
      have step : (chatLoopAux me ((p :: pre') ++ r :: rest) msgs rv).2 =
          (chatLoopAux (me.handle_tool_call p.choices0.message.tool_calls).2 (pre' ++ r :: rest)
            ((msgs ++ [AssistantMessage.toMsg p.choices0.message]) ++
              (me.handle_tool_call p.choices0.message.tool_calls).1) (some p)).2 := by
        simp only [List.cons_append, chatLoopAux, hp, if_pos, List.append_eq]
      rw [step, hme]
      exact hms

theorem chatLoopAux_requests (responses : List Response) :
    ∀ me msgs rv req, req ∈ (chatLoopAux me responses msgs rv).1 →
      req.model = "gpt-4o-mini" ∧ req.tools = tools := by
  induction responses with
  | nil => intro me msgs rv req h; exact absurd h (by simp [chatLoopAux])
  | cons r rest ih =>
      intro me msgs rv req h
      by_cases hr : r.choices0.finish_reason = "tool_calls"
      · simp only [chatLoopAux, hr, if_pos, List.mem_cons] at h
        rcases h with h | h
        · subst h; exact ⟨rfl, rfl⟩
        · exact ih _ _ _ _ h
      · simp only [chatLoopAux, hr, if_neg, if_false, List.mem_singleton] at h
        subst h; exact ⟨rfl, rfl⟩

theorem chatLoopAux_step (me : Me) (r : Response) (rest : List Response) (msgs : List Msg)
    (rv : Option Response) (hr : r.choices0.finish_reason = "tool_calls") :
    (chatLoopAux me (r :: rest) msgs rv).2 =
      (chatLoopAux me rest ((msgs ++ [AssistantMessage.toMsg r.choices0.message]) ++
        (me.handle_tool_call r.choices0.message.tool_calls).1) (some r)).2 := by
  have hme : (me.handle_tool_call r.choices0.message.tool_calls).2 = me := by
    rw [handle_tool_call_spec]
  simp only [chatLoopAux, hr, if_pos]
  rw [hme]

theorem chatLoopAux_exit_step (me : Me) (r : Response) (rest : List Response) (msgs : List Msg)
    (rv : Option Response) (hr : r.choices0.finish_reason ≠ "tool_calls") :
    (chatLoopAux me (r :: rest) msgs rv).2 = some (some r, msgs, me) := by
  simp [chatLoopAux, hr]

/-- C1: the tool-calling loop of `Me.chat` terminates exactly when a model
response arrives whose finish reason is not a tool-call request: while
every response of the trace requests tool calls the loop continues (no
exit within the trace), and on the first response whose finish reason is
not "tool_calls" the loop exits and that response's message content is
the value `Me.chat` returns. -/
theorem c1_loop_terminates_iff_non_tool_response (me : Me) (responses : List Response) :
    ((∀ r ∈ responses, r.choices0.finish_reason = "tool_calls") →
      ∀ msgs rv, (chatLoopAux me responses msgs rv).2 = none) ∧
    (∀ pre r rest, responses = pre ++ r :: rest →
      (∀ p ∈ pre, p.choices0.finish_reason = "tool_calls") →
      r.choices0.finish_reason ≠ "tool_calls" →
      (∀ msgs rv, ∃ ms, (chatLoopAux me responses msgs rv).2 = some (some r, ms, me)) ∧
      ∀ message history, (me.chat responses message history).1 = some r.choices0.message.content) := by
  constructor
  · intro h msgs rv
    exact chatLoopAux_all_tool responses me msgs rv h
  · intro pre r rest hdec hpre hr
    constructor
    · intro msgs rv
      rw [hdec]
      exact chatLoopAux_first_exit pre me r rest msgs rv hpre hr
    · intro message history
      obtain ⟨ms, hms⟩ :=
        chatLoopAux_first_exit pre me r rest (initMessages me message history) none hpre hr
      rw [chat_def, hdec, hms]

/-- C3 counterexample: in the compiled router graph the successor of the
tool-execution node is END, not the LLM node, so the graph stops after
one tool execution instead of returning control to the LLM node. -/
theorem c3_counterexample_router_tools_to_end :
    routerNext RNode.tools true = some RNode.END ∧
    routerNext RNode.tools true ≠ some RNode.tool_calling_llm := by decide

/-- C3 amended: in `me_with_tools.py`, after a response requesting tools
the tool results are appended and the model is called again, and the loop
exits on a plain (non-tool) answer; the router graph of `router.py`,
however, routes the tool-execution node to END for every state, stopping
after one tool execution. -/
theorem c3_amended_chat_loop_repeats_router_stops (me : Me) :
    (∀ r rest msgs rv, r.choices0.finish_reason = "tool_calls" →
      (chatLoopAux me (r :: rest) msgs rv).2 =
        (chatLoopAux me rest ((msgs ++ [AssistantMessage.toMsg r.choices0.message]) ++
          (me.handle_tool_call r.choices0.message.tool_calls).1) (some r)).2) ∧
    (∀ r rest msgs rv, r.choices0.finish_reason ≠ "tool_calls" →
      (chatLoopAux me (r :: rest) msgs rv).2 = some (some r, msgs, me)) ∧
    (∀ b, routerNext RNode.tools b = some RNode.END) := by
  exact ⟨fun r rest msgs rv hr => chatLoopAux_step me r rest msgs rv hr,
         fun r rest msgs rv hr => chatLoopAux_exit_step me r rest msgs rv hr,
         fun b => rfl⟩

theorem c3_amended_witness :
    (chatLoopAux ⟨"N", "B", "S"⟩
      [⟨⟨"tool_calls", ⟨"", [⟨"call_1", ⟨"record_unknown_question", [("question", "q")]⟩⟩]⟩⟩⟩]
      [] none).2 =
      (chatLoopAux ⟨"N", "B", "S"⟩ []
        (([] ++ [AssistantMessage.toMsg ⟨"", [⟨"call_1", ⟨"record_unknown_question", [("question", "q")]⟩⟩]⟩]) ++
          (Me.handle_tool_call ⟨"N", "B", "S"⟩
            [⟨"call_1", ⟨"record_unknown_question", [("question", "q")]⟩⟩]).1)
        (some ⟨⟨"tool_calls", ⟨"", [⟨"call_1", ⟨"record_unknown_question", [("question", "q")]⟩⟩]⟩⟩⟩)).2 ∧
    routerNext RNode.tools false = some RNode.END :=
  ⟨(c3_amended_chat_loop_repeats_router_stops ⟨"N", "B", "S"⟩).1
      ⟨⟨"tool_calls", ⟨"", [⟨"call_1", ⟨"record_unknown_question", [("question", "q")]⟩⟩]⟩⟩⟩ [] [] none
      (by decide),
   (c3_amended_chat_loop_repeats_router_stops ⟨"N", "B", "S"⟩).2.2 false⟩

/-- C8: a failure of PDF loading or of the summary-file read propagates
out of `Me.__init__` unchanged, and a failure of the outbound POST
propagates out of `push` unchanged: neither contains a handler, retry or
fallback, and no recovery result is produced. -/
theorem c8_failures_propagate :
    (∀ e sm, MeInit (Except.error e) sm = Except.error e) ∧
    (∀ pages e, MeInit (Except.ok pages) (Except.error e) = Except.error e) ∧
    (∀ env post message e,
      post env.pushoverUrl ⟨env.pushoverToken, env.pushoverUser, message⟩ = Except.error e →
      push env post message = Except.error e) :=
  ⟨fun _ _ => rfl, fun _ _ => rfl, fun _ _ _ _ h => h⟩

theorem c8_witness :
    MeInit (Except.error "pdf failure") (Except.ok "summary") = Except.error "pdf failure" ∧
    MeInit (Except.ok [some "page"]) (Except.error "read failure") = Except.error "read failure" ∧
    push ⟨some "tok", some "usr", "https://example.org"⟩
      (fun _ _ => Except.error "connection refused") "m" = Except.error "connection refused" :=
  ⟨c8_failures_propagate.1 "pdf failure" (Except.ok "summary"),
   c8_failures_propagate.2.1 [some "page"] "read failure",
   c8_failures_propagate.2.2 ⟨some "tok", some "usr", "https://example.org"⟩
     (fun _ _ => Except.error "connection refused") "m" "connection refused" rfl⟩

theorem handle_tool_call_exc_agrees (me : Me) (env : Env)
    (post : String → PushPayload → Except String Unit) :
    ∀ tcs : List ToolCall,
      (∀ tc ∈ tcs, dispatchCall env post tc.function.name tc.function.arguments =
        some (Except.ok (PyVal.obj (dispatchResult tc)))) →
      me.handle_tool_call_exc env post tcs = some (Except.ok (me.handle_tool_call tcs)) := by
  intro tcs
  induction tcs with
  | nil => intro _; rfl
  | cons tc rest ih =>
      intro h
      have htc := h tc (List.mem_cons_self tc rest)
      have hrest := ih (fun q hq => h q (List.mem_cons_of_mem tc hq))
      rw [handle_tool_call_spec] at hrest ⊢
      simp [Me.handle_tool_call_exc, htc, hrest, jsonDumps]

/-- C4: for every persona state, the string built by `Me.system_prompt`
contains the persona name, the summary text and the biography text each
as a verbatim substring (exhibited by explicit decompositions). -/
theorem c4_system_prompt_embeds_persona (me : Me) :
    (∃ a b, (me.system_prompt).1 = a ++ (me.name ++ b)) ∧
    (∃ a b, (me.system_prompt).1 = a ++ (me.summary ++ b)) ∧
    (∃ a b, (me.system_prompt).1 = a ++ (me.bio ++ b)) := by
  refine ⟨⟨"You are acting as ",
    ". You are answering questions on " ++ me.name ++
    "\x27s website, particularly questions related to " ++ me.name ++
    "\x27s career, background, skills and experience. " ++
    "Your responsibility is to represent " ++ me.name ++
    " for interactions on the website as faithfully as possible. " ++
    "You are given a summary of " ++ me.name ++
    "\x27s background and bio profile which you can use to answer questions. " ++
    "Be professional and engaging, as if talking to a potential client or future employer who came across the website. " ++
    "If you don\x27t know the answer to any question, use your record_unknown_question tool to record the question that you couldn\x27t answer, even if it\x27s about something trivial or unrelated to career. " ++
    "If the user is engaging in discussion, try to steer them towards getting in touch via email; ask for their email and record it using your record_user_details tool. " ++
    "\n\n## Summary:\n" ++ me.summary ++ "\n\n## bio Profile:\n" ++ me.bio ++ "\n\n" ++
    "With this context, please chat with the user, always staying in character as " ++
    me.name ++ ".", ?_⟩, ⟨"You are acting as " ++ me.name ++
    ". You are answering questions on " ++ me.name ++
    "\x27s website, particularly questions related to " ++ me.name ++
    "\x27s career, background, skills and experience. " ++
    "Your responsibility is to represent " ++ me.name ++
    " for interactions on the website as faithfully as possible. " ++
    "You are given a summary of " ++ me.name ++
    "\x27s background and bio profile which you can use to answer questions. " ++
    "Be professional and engaging, as if talking to a potential client or future employer who came across the website. " ++
    "If you don\x27t know the answer to any question, use your record_unknown_question tool to record the question that you couldn\x27t answer, even if it\x27s about something trivial or unrelated to career. " ++
    "If the user is engaging in discussion, try to steer them towards getting in touch via email; ask for their email and record it using your record_user_details tool. " ++
    "\n\n## Summary:\n",
    "\n\n## bio Profile:\n" ++ me.bio ++ "\n\n" ++
    "With this context, please chat with the user, always staying in character as " ++
    me.name ++ ".", ?_⟩, ⟨"You are acting as " ++ me.name ++
    ". You are answering questions on " ++ me.name ++
    "\x27s website, particularly questions related to " ++ me.name ++
    "\x27s career, background, skills and experience. " ++
    "Your responsibility is to represent " ++ me.name ++
    " for interactions on the website as faithfully as possible. " ++
    "You are given a summary of " ++ me.name ++
    "\x27s background and bio profile which you can use to answer questions. " ++
    "Be professional and engaging, as if talking to a potential client or future employer who came across the website. " ++
    "If you don\x27t know the answer to any question, use your record_unknown_question tool to record the question that you couldn\x27t answer, even if it\x27s about something trivial or unrelated to career. " ++
    "If the user is engaging in discussion, try to steer them towards getting in touch via email; ask for their email and record it using your record_user_details tool. " ++
    "\n\n## Summary:\n" ++ me.summary ++ "\n\n## bio Profile:\n",
    "\n\n" ++
    "With this context, please chat with the user, always staying in character as " ++
    me.name ++ ".", ?_⟩⟩ <;>
  simp [Me.system_prompt, String.append_assoc]

/-- C5: during a run of `Me.chat` the message sequence is append-only:
each loop iteration extends the sequence by the assistant message and the
tool results (or the loop terminates), earlier entries are never modified
or removed (the messages at any point are a prefix of the messages at
exit), and the caller's history appears verbatim inside every later
messages list. -/
theorem c5_messages_append_only (me : Me) :
    (∀ r rest msgs rv, r.choices0.finish_reason = "tool_calls" →
      (chatLoopAux me (r :: rest) msgs rv).2 =
        (chatLoopAux me rest ((msgs ++ [AssistantMessage.toMsg r.choices0.message]) ++
          (me.handle_tool_call r.choices0.message.tool_calls).1) (some r)).2) ∧
    (∀ responses msgs rv out, (chatLoopAux me responses msgs rv).2 = some out →
      msgs <+: out.2.1) ∧
    (∀ responses message history out,
      (chatLoopAux me responses (initMessages me message history) none).2 = some out →
      ∃ tail, out.2.1 =
        ⟨"system", (me.system_prompt).1, none, []⟩ ::
          (history ++ (⟨"user", message, none, []⟩ :: tail))) := by
  refine ⟨fun r rest msgs rv hr => chatLoopAux_step me r rest msgs rv hr, ?_, ?_⟩
  · intro responses msgs rv out h
    exact (chatLoopAux_exit responses me msgs rv out h).2.1
  · intro responses message history out h
    obtain ⟨t, ht⟩ := (chatLoopAux_exit responses me _ none out h).2.1
    refine ⟨t, ?_⟩
    rw [← ht]
    simp [initMessages]

theorem c5_witness :
    [(⟨"user", "hi", none, []⟩ : Msg)] <+:
      [⟨"user", "hi", none, []⟩,
       ⟨"assistant", "", none, [⟨"call_1", ⟨"record_unknown_question", [("question", "q")]⟩⟩]⟩,
       ⟨"tool", "\x7b\"recorded\": \"ok\"\x7d", some "call_1", []⟩] :=
  (c5_messages_append_only ⟨"N", "B", "S"⟩).2.1
    [⟨⟨"tool_calls", ⟨"", [⟨"call_1", ⟨"record_unknown_question", [("question", "q")]⟩⟩]⟩⟩⟩,
     ⟨⟨"stop", ⟨"Hello", []⟩⟩⟩]
    [⟨"user", "hi", none, []⟩] none
    (some ⟨⟨"stop", ⟨"Hello", []⟩⟩⟩,
     [⟨"user", "hi", none, []⟩,
      ⟨"assistant", "", none, [⟨"call_1", ⟨"record_unknown_question", [("question", "q")]⟩⟩]⟩,
      ⟨"tool", "\x7b\"recorded\": \"ok\"\x7d", some "call_1", []⟩],
     ⟨"N", "B", "S"⟩)
    (by rfl)

/-- C6: the persona fields (name, bio, summary) are assigned once in
`Me.__init__` — name to the constant, bio to the page concatenation,
summary to the file contents — and every subsequent operation
(`system_prompt`, `handle_tool_call`, `chat`) leaves the persona state
unchanged. -/
theorem c6_persona_fields_assigned_once (me : Me) :
    (∀ pages s m, MeInit (Except.ok pages) (Except.ok s) = Except.ok m →
      m.name = "Ypatios Chaniotakos" ∧ m.bio = extractBio pages ∧ m.summary = s) ∧
    ((me.system_prompt).2 = me) ∧
    (∀ tcs, (me.handle_tool_call tcs).2 = me) ∧
    (∀ responses message history, (me.chat responses message history).2 = me) := by
  refine ⟨?_, rfl, ?_, ?_⟩
  · intro pages s m h
    have hm : (⟨"Ypatios Chaniotakos", extractBio pages, s⟩ : Me) = m := by
      simpa [MeInit] using h
    rw [← hm]
    exact ⟨rfl, rfl, rfl⟩
  · intro tcs
    rw [handle_tool_call_spec]
  · intro responses message history
    rw [chat_def]
    rcases hout : (chatLoopAux me responses (initMessages me message history) none).2 with _ | out
    · rfl
    · have hme := (chatLoopAux_exit responses me _ none out hout).2.2
      rcases out with ⟨rv', ms, m⟩
      rcases rv' with _ | r
      · simpa using hme
      · simpa using hme

theorem c6_witness :
    ((⟨"Ypatios Chaniotakos", "bio text", "the summary"⟩ : Me).name = "Ypatios Chaniotakos" ∧
      (⟨"Ypatios Chaniotakos", "bio text", "the summary"⟩ : Me).bio =
        extractBio [some "bio text", none] ∧
      (⟨"Ypatios Chaniotakos", "bio text", "the summary"⟩ : Me).summary = "the summary") ∧
    (Me.chat ⟨"N", "B", "S"⟩ [⟨⟨"stop", ⟨"Hello", []⟩⟩⟩] "hi" []).2 = ⟨"N", "B", "S"⟩ :=
  ⟨(c6_persona_fields_assigned_once ⟨"N", "B", "S"⟩).1 [some "bio text", none] "the summary"
      ⟨"Ypatios Chaniotakos", "bio text", "the summary"⟩ rfl,
   (c6_persona_fields_assigned_once ⟨"N", "B", "S"⟩).2.2.2 [⟨⟨"stop", ⟨"Hello", []⟩⟩⟩] "hi" []⟩

/-- C7: every chat-completion request issued inside `Me.chat` carries the
model "gpt-4o-mini" and the same fixed tool schema of exactly two
function definitions: `record_user_details` with required parameter
`email` and optional parameters `name` and `notes` under
`additionalProperties: false`, and `record_unknown_question` with
required parameter `question` under `additionalProperties: false`. -/
theorem c7_requests_fixed_tool_schema (me : Me) (responses : List Response)
    (msgs : List Msg) (rv : Option Response) (req : Request)
    (h : req ∈ (chatLoopAux me responses msgs rv).1) :
    req.model = "gpt-4o-mini" ∧ req.tools = tools ∧
    ∃ t1 t2, req.tools = [t1, t2] ∧
      t1.function.name = "record_user_details" ∧
      t1.function.parameters.required = ["email"] ∧
      t1.function.parameters.properties.map PropEntry.name = ["email", "name", "notes"] ∧
      "name" ∉ t1.function.parameters.required ∧
      "notes" ∉ t1.function.parameters.required ∧
      t1.function.parameters.additionalProperties = false ∧
      t2.function.name = "record_unknown_question" ∧
      t2.function.parameters.required = ["question"] ∧
      t2.function.parameters.properties.map PropEntry.name = ["question"] ∧
      t2.function.parameters.additionalProperties = false := by
  obtain ⟨hm, ht⟩ := chatLoopAux_requests responses me msgs rv req h
  refine ⟨hm, ht, ⟨"function", record_user_details_json⟩,
    ⟨"function", record_unknown_question_json⟩, ?_⟩
  rw [ht]
  exact ⟨rfl, rfl, rfl, rfl, by decide, by decide, rfl, rfl, rfl, rfl, rfl⟩

theorem c7_witness :
    (⟨"gpt-4o-mini", [], tools⟩ : Request).model = "gpt-4o-mini" ∧
    (⟨"gpt-4o-mini", [], tools⟩ : Request).tools = tools :=
  ⟨(c7_requests_fixed_tool_schema ⟨"N", "B", "S"⟩ [⟨⟨"stop", ⟨"Hello", []⟩⟩⟩] [] none
      ⟨"gpt-4o-mini", [], tools⟩ (by simp [chatLoopAux])).1,
   (c7_requests_fixed_tool_schema ⟨"N", "B", "S"⟩ [⟨⟨"stop", ⟨"Hello", []⟩⟩⟩] [] none
      ⟨"gpt-4o-mini", [], tools⟩ (by simp [chatLoopAux])).2.1⟩

/-- C10: the loop body of `Me.chat` runs at least once before any exit,
so at exit the `response` variable always holds the last response (never
None) and the guard returning the empty string is unreachable: whatever
`Me.chat` returns is the content of the final model response. -/
theorem c10_guard_unreachable (me : Me) (responses : List Response) :
    (∀ msgs rv out, (chatLoopAux me responses msgs rv).2 = some out →
      ∃ r, r ∈ responses ∧ out.1 = some r ∧ r.choices0.finish_reason ≠ "tool_calls") ∧
    (∀ message history s, (me.chat responses message history).1 = some s →
      ∃ r, r ∈ responses ∧ r.choices0.finish_reason ≠ "tool_calls" ∧
        s = r.choices0.message.content) := by
  constructor
  · intro msgs rv out h
    exact (chatLoopAux_exit responses me msgs rv out h).1
  · intro message history s h
    rw [chat_def] at h
    rcases hout : (chatLoopAux me responses (initMessages me message history) none).2 with _ | out
    · rw [hout] at h
      simp at h
    · rw [hout] at h
      obtain ⟨⟨r, hmem, hr1, hne⟩, -, -⟩ := chatLoopAux_exit responses me _ none out hout
      rcases out with ⟨rv', ms, m⟩
      simp only at hr1
      subst hr1
      simp only at h
      exact ⟨r, hmem, hne, (Option.some_inj.mp h).symm⟩

theorem c10_witness :
    ∃ r, r ∈ [(⟨⟨"stop", ⟨"Hello", []⟩⟩⟩ : Response)] ∧
      r.choices0.finish_reason ≠ "tool_calls" ∧ "Hello" = r.choices0.message.content :=
  (c10_guard_unreachable ⟨"N", "B", "S"⟩ [⟨⟨"stop", ⟨"Hello", []⟩⟩⟩]).2 "hi" [] "Hello" (by rfl)

theorem c1_witness :
    (chatLoopAux ⟨"N", "B", "S"⟩
      [⟨⟨"tool_calls", ⟨"", [⟨"call_1", ⟨"record_unknown_question", [("question", "q")]⟩⟩]⟩⟩⟩]
      [] none).2 = none ∧
    (Me.chat ⟨"N", "B", "S"⟩
      [⟨⟨"tool_calls", ⟨"", [⟨"call_1", ⟨"record_unknown_question", [("question", "q")]⟩⟩]⟩⟩⟩,
       ⟨⟨"stop", ⟨"Hello", []⟩⟩⟩] "hi" []).1 = some "Hello" :=
  ⟨(c1_loop_terminates_iff_non_tool_response ⟨"N", "B", "S"⟩
      [⟨⟨"tool_calls", ⟨"", [⟨"call_1", ⟨"record_unknown_question", [("question", "q")]⟩⟩]⟩⟩⟩]).1
      (by decide) [] none,
   ((c1_loop_terminates_iff_non_tool_response ⟨"N", "B", "S"⟩
      [⟨⟨"tool_calls", ⟨"", [⟨"call_1", ⟨"record_unknown_question", [("question", "q")]⟩⟩]⟩⟩⟩,
       ⟨⟨"stop", ⟨"Hello", []⟩⟩⟩]).2
      [⟨⟨"tool_calls", ⟨"", [⟨"call_1", ⟨"record_unknown_question", [("question", "q")]⟩⟩]⟩⟩⟩]
      ⟨⟨"stop", ⟨"Hello", []⟩⟩⟩ [] rfl (by decide) (by decide)).2 "hi" []⟩

/-- C2 counterexample: the tool name "tools" does not resolve to a local
function — it is bound to a truthy list — yet the dispatch calls it and
raises TypeError instead of yielding an empty-object result: the
truthiness dispatch `tool(**arguments) if tool else ...` calls every
truthy global, callable or not. -/
theorem c2_counterexample_nonfunction_name_raises :
    moduleGlobalsGet ⟨some "tok", some "usr", "https://u"⟩ "tools" =
      some PyGlobal.truthyNonCallable ∧
    Me.handle_tool_call_exc ⟨"N", "B", "S"⟩ ⟨some "tok", some "usr", "https://u"⟩
      (fun _ _ => Except.ok ()) [⟨"call_1", ⟨"tools", []⟩⟩] =
      some (Except.error "TypeError: object is not callable") ∧
    Me.handle_tool_call_exc ⟨"N", "B", "S"⟩ ⟨some "tok", some "usr", "https://u"⟩
      (fun _ _ => Except.ok ()) [⟨"call_1", ⟨"tools", []⟩⟩] ≠
      some (Except.ok ([⟨"tool", "\x7b\x7d", some "call_1", []⟩], ⟨"N", "B", "S"⟩)) := by
  have he : Me.handle_tool_call_exc ⟨"N", "B", "S"⟩ ⟨some "tok", some "usr", "https://u"⟩
      (fun _ _ => Except.ok ()) [⟨"call_1", ⟨"tools", []⟩⟩] =
      some (Except.error "TypeError: object is not callable") := rfl
  refine ⟨by decide, he, ?_⟩
  rw [he]
  intro hcontra
  exact Except.noConfusion (Option.some.inj hcontra)

/-- C2 amended: each recognized tool name (`record_user_details`,
`record_unknown_question`) resolves through the module globals to exactly
one local function; a tool name absent from the module globals or bound
to a falsy value yields the serialized empty object for that call
instead of raising; but a name bound to a truthy non-callable global
raises TypeError, and the name "push" invokes the callable `push`
itself, whose None result serializes to "null". -/
theorem c2_amended_tool_dispatch (env : Env)
    (post : String → PushPayload → Except String Unit) :
    moduleGlobalsGet env "record_user_details" = some PyGlobal.toolRecordUserDetails ∧
    moduleGlobalsGet env "record_unknown_question" = some PyGlobal.toolRecordUnknownQuestion ∧
    (∀ name args, moduleGlobalsGet env name = none →
      dispatchCall env post name args = some (Except.ok (PyVal.obj []))) ∧
    (∀ name args, moduleGlobalsGet env name = some PyGlobal.falsy →
      dispatchCall env post name args = some (Except.ok (PyVal.obj []))) ∧
    (∀ name args, moduleGlobalsGet env name = some PyGlobal.truthyNonCallable →
      dispatchCall env post name args = some (Except.error "TypeError: object is not callable")) ∧
    (∀ args, dispatchCall env post "push" args = some (callPush env post args)) ∧
    jsonDumps (PyVal.obj []) = "\x7b\x7d" ∧ jsonDumps PyVal.pynone = "null" := by
  refine ⟨rfl, rfl, ?_, ?_, ?_, fun args => rfl, rfl, rfl⟩
  · intro name args h
    simp [dispatchCall, h]
  · intro name args h
    simp [dispatchCall, h]
  · intro name args h
    simp [dispatchCall, h]

theorem c2_amended_witness :
    dispatchCall ⟨some "tok", some "usr", "https://u"⟩ (fun _ _ => Except.ok ())
      "imaginary_tool" [] = some (Except.ok (PyVal.obj [])) ∧
    dispatchCall ⟨some "tok", some "usr", "https://u"⟩ (fun _ _ => Except.ok ())
      "record_user_details_json" [] =
      some (Except.error "TypeError: object is not callable") :=
  ⟨(c2_amended_tool_dispatch ⟨some "tok", some "usr", "https://u"⟩
      (fun _ _ => Except.ok ())).2.2.1 "imaginary_tool" [] (by decide),
   (c2_amended_tool_dispatch ⟨some "tok", some "usr", "https://u"⟩
      (fun _ _ => Except.ok ())).2.2.2.2.1 "record_user_details_json" [] (by decide)⟩

/-- C9 counterexample: a tool call to `record_user_details` whose
arguments lack the required `email` keyword makes the call raise
TypeError, so `handle_tool_call` returns no result list at all for this
one-element input — contradicting the claimed same-length list with the
dispatched result serialized. -/
theorem c9_counterexample_missing_required_raises :
    Me.handle_tool_call_exc ⟨"N", "B", "S"⟩ ⟨some "tok", some "usr", "https://u"⟩
      (fun _ _ => Except.ok ()) [⟨"call_7", ⟨"record_user_details", [("notes", "hi")]⟩⟩] =
      some (Except.error "TypeError: invalid keyword arguments") ∧
    Me.handle_tool_call_exc ⟨"N", "B", "S"⟩ ⟨some "tok", some "usr", "https://u"⟩
      (fun _ _ => Except.ok ()) [⟨"call_7", ⟨"record_user_details", [("notes", "hi")]⟩⟩] ≠
      some (Except.ok ([⟨"tool", "\x7b\"recorded\": \"ok\"\x7d", some "call_7", []⟩],
        ⟨"N", "B", "S"⟩)) := by
  have he : Me.handle_tool_call_exc ⟨"N", "B", "S"⟩ ⟨some "tok", some "usr", "https://u"⟩
      (fun _ _ => Except.ok ()) [⟨"call_7", ⟨"record_user_details", [("notes", "hi")]⟩⟩] =
      some (Except.error "TypeError: invalid keyword arguments") := rfl
  refine ⟨he, ?_⟩
  rw [he]
  intro hcontra
  exact Except.noConfusion (Option.some.inj hcontra)

/-- C9 amended: for every list of tool calls whose dispatches all
complete without raising, `Me.handle_tool_call` returns a list of the
same length whose i-th element corresponds to the i-th call in order,
has role "tool", carries that call's identifier as `tool_call_id`, and
whose content is the JSON serialization of that call's dispatched
result; if a dispatch raises, the exception propagates and no list is
returned (later calls never run). -/
theorem c9_amended_handle_tool_call (me : Me) (env : Env)
    (post : String → PushPayload → Except String Unit) :
    (∀ tcs results me', me.handle_tool_call_exc env post tcs = some (Except.ok (results, me')) →
      results.length = tcs.length ∧ me' = me ∧
      ∀ (i : Nat) (tc : ToolCall), tcs[i]? = some tc →
        ∃ v, dispatchCall env post tc.function.name tc.function.arguments =
            some (Except.ok v) ∧
          results[i]? = some ⟨"tool", jsonDumps v, some tc.id, []⟩) ∧
    (∀ tc rest e, dispatchCall env post tc.function.name tc.function.arguments =
        some (Except.error e) →
      me.handle_tool_call_exc env post (tc :: rest) = some (Except.error e)) := by
  constructor
  · intro tcs
    induction tcs with
    | nil =>
        intro results me' h
        simp [Me.handle_tool_call_exc] at h
        obtain ⟨h1, h2⟩ := h
        subst h1
        subst h2
        refine ⟨rfl, rfl, ?_⟩
        intro i tc htc
        simp at htc
    | cons tc rest ih =>
        intro results me' h
        rcases hd : dispatchCall env post tc.function.name tc.function.arguments with _ | ed
        · simp [Me.handle_tool_call_exc, hd] at h
        rcases ed with e | v
        · simp [Me.handle_tool_call_exc, hd] at h
        rcases hr : me.handle_tool_call_exc env post rest with _ | er
        · simp [Me.handle_tool_call_exc, hd, hr] at h
        rcases er with e | r
        · simp [Me.handle_tool_call_exc, hd, hr] at h
        simp only [Me.handle_tool_call_exc, hd, hr] at h
        obtain ⟨hres, hme⟩ : (⟨"tool", jsonDumps v, some tc.id, []⟩ : Msg) :: r.1 = results ∧
            r.2 = me' := by
          simpa using h
        obtain ⟨hlen, hm2, hpt⟩ := ih r.1 r.2 (by rw [hr])
        subst hres
        subst hme
        refine ⟨by simp [hlen], hm2, ?_⟩
        intro i tc' htc
        cases i with
        | zero =>
            simp at htc
            subst htc
            exact ⟨v, hd, by simp⟩
        | succ n =>
            simp at htc
            obtain ⟨v', hv, hres'⟩ := hpt n tc' htc
            exact ⟨v', hv, by simpa using hres'⟩
  · intro tc rest e h
    simp [Me.handle_tool_call_exc, h]

theorem c9_amended_witness :
    ([(⟨"tool", "\x7b\"recorded\": \"ok\"\x7d", some "call_1", []⟩ : Msg)].length =
      [(⟨"call_1", ⟨"record_unknown_question", [("question", "q")]⟩⟩ : ToolCall)].length) ∧
    ∃ v, dispatchCall ⟨some "tok", some "usr", "https://u"⟩ (fun _ _ => Except.ok ())
        "record_unknown_question" [("question", "q")] = some (Except.ok v) ∧
      [(⟨"tool", "\x7b\"recorded\": \"ok\"\x7d", some "call_1", []⟩ : Msg)][0]? =
        some ⟨"tool", jsonDumps v, some "call_1", []⟩ := by
  have happ := (c9_amended_handle_tool_call ⟨"N", "B", "S"⟩
      ⟨some "tok", some "usr", "https://u"⟩ (fun _ _ => Except.ok ())).1
    [⟨"call_1", ⟨"record_unknown_question", [("question", "q")]⟩⟩]
    [⟨"tool", "\x7b\"recorded\": \"ok\"\x7d", some "call_1", []⟩] ⟨"N", "B", "S"⟩ rfl
  exact ⟨happ.1,
    happ.2.2 0 ⟨"call_1", ⟨"record_unknown_question", [("question", "q")]⟩⟩ rfl⟩
